import Mathlib

/-!
# Verification of the NextUI netplay runtime (shallow embedding)

This file embeds, in Lean 4, the state and the state-transforming logic of
the NextUI network link runtime:

* the Netplay lockstep engine (`netplay.c`),
* the GBA Link framed-packet transport (`gbalink.c`),
* the shared discovery helper (`network_common.c`).

The embedding is shallow: the C module-level `static struct` records become
Lean structures, and each C function that mutates them becomes a Lean
function from the old record (plus the inputs the function reads from the
network or the OS) to the new record and the function's return value.
External effects are modelled explicitly:

* bytes or packets arriving from the TCP socket are passed in as a list of
  events consumed in order (a `select`/`recv` timeout is an event too);
* outcomes of `send` calls are passed in as a list of per-call outcomes;
* OS socket creation is assumed to succeed on the paths the theorems use
  (each definition's comment notes where);
* wall-clock timestamps are passed in as plain numbers where a function
  reads the clock;
* actual transmission on the wire, logging, and core callbacks have no
  effect on the session record and are only tracked where a theorem needs
  them (e.g. whether `disconnect` attempted to send a packet).

Status strings built with `snprintf` are modelled by an inductive type with
one constructor per distinct format string, carrying the numeric parts that
matter to the claims.
-/

namespace NextUI

/-! ## Netplay engine (`workspace/all/netplay/netplay.c`) -/

/-- `NetplayMode` from `netplay.h`. -/
inductive NpMode
  | off
  | host
  | client
deriving DecidableEq, Repr, Inhabited

/-- `NetplayState` from `netplay.h`. -/
inductive NpState
  | idle
  | waiting
  | connecting
  | syncing
  | playing
  | stalled
  | paused
  | disconnected
  | error
deriving DecidableEq, Repr, Inhabited

/-- The status strings written into `np.status_msg` by `snprintf`, one
constructor per format string in `netplay.c`.  `waitingCountdown r` stands
for `"Waiting... (<r>s)"` with `r` the computed remaining seconds. -/
inductive NpStatus
  | ready                      -- "Netplay ready"
  | hosting                    -- "Hosting on <ip>:<port>"
  | clientConnected            -- "Client connected: <ip>"
  | connectingTo               -- "Connecting to <ip>:<port>..."
  | connectedTo                -- "Connected to <ip>"
  | disconnectedMsg            -- "Disconnected"
  | hostDisconnected           -- "Host disconnected"
  | clientLeftWaiting          -- "Client left, waiting on <ip>:<port>"
  | remoteDisconnected         -- "Remote disconnected"
  | remotePausedMsg            -- "Remote player paused"
  | active                     -- "Netplay active"
  | connectionTimeout          -- "Connection timeout"
  | waitingCountdown (remaining : Nat)  -- "Waiting... (<remaining>s)"
  | pausedMsg                  -- "Paused"
  | waitingForRemote           -- "Waiting for remote..."
  | connectionLost             -- "Connection lost"
  | invalidIp                  -- "Invalid IP address"
  | connectionFailed           -- "Connection failed"
  | socketFailed               -- "Socket creation failed"
  | broadcastFailed            -- "Failed to restart broadcast"
deriving DecidableEq, Repr, Inhabited

/-- The `FrameInput` slot of the circular frame buffer.  Inputs are the
16-bit bitmasks; they are carried as `Nat` (the code never overflows them:
they are read and written whole). -/
structure FrameInput where
  frame : Nat
  p1Input : Nat
  p2Input : Nat
  haveP1 : Bool
  haveP2 : Bool
deriving DecidableEq, Repr, Inhabited

/-- `NETPLAY_FRAME_BUFFER_SIZE` (`netplay.h`). -/
def NETPLAY_FRAME_BUFFER_SIZE : Nat := 64

/-- `NETPLAY_STALL_TIMEOUT_FRAMES` (`netplay.h`): 180 frames = 3 s at 60 fps. -/
def NETPLAY_STALL_TIMEOUT_FRAMES : Nat := 180

/-- `NETPLAY_STALL_WARNING_FRAMES` (`netplay.h`). -/
def NETPLAY_STALL_WARNING_FRAMES : Nat := 60

/-- `NETPLAY_KEEPALIVE_INTERVAL_FRAMES` (`netplay.h`). -/
def NETPLAY_KEEPALIVE_INTERVAL_FRAMES : Nat := 30

/-- `NETPLAY_INPUT_LATENCY_FRAMES` (`netplay.h`). -/
def NETPLAY_INPUT_LATENCY_FRAMES : Nat := 2

/-- The Netplay session record: the module-level `static struct ... np` of
`netplay.c`.  File descriptors are modelled by whether they are open
(`tcp_fd >= 0` becomes `tcpConnected`, etc.).  The discovery host list,
the pthread handle and the mutex are omitted: the embedding is the
sequential behaviour of the operations on the record. -/
structure Np where
  mode : NpMode
  state : NpState
  tcpConnected : Bool          -- tcp_fd >= 0
  listenOpen : Bool            -- listen_fd >= 0
  udpOpen : Bool               -- udp_fd >= 0
  localIp : String
  remoteIp : String
  port : Nat
  gameName : String
  gameCrc : Nat
  selfFrame : Nat
  runFrame : Nat
  otherFrame : Nat
  frameBuffer : List FrameInput   -- 64 entries, index = frame % 64
  localInput : Nat
  needsStateSync : Bool
  stateSyncComplete : Bool
  running : Bool
  statusMsg : NpStatus
  stallFrames : Nat
  audioShouldSilence : Bool
  usingHotspot : Bool
  localPaused : Bool
  remotePaused : Bool
deriving DecidableEq, Repr

/-- `get_frame_slot`: `&np.frame_buffer[frame & NETPLAY_FRAME_MASK]`. -/
def getFrameSlot (np : Np) (frame : Nat) : FrameInput :=
  np.frameBuffer.getD (frame % NETPLAY_FRAME_BUFFER_SIZE) default

/-- Writing back through the pointer returned by `get_frame_slot`. -/
def setFrameSlot (np : Np) (frame : Nat) (v : FrameInput) : Np :=
  { np with frameBuffer := np.frameBuffer.set (frame % NETPLAY_FRAME_BUFFER_SIZE) v }

/-- `init_frame_slot`. -/
def initFrameSlot (np : Np) (frame : Nat) : Np :=
  setFrameSlot np frame
    { frame := frame, p1Input := 0, p2Input := 0, haveP1 := false, haveP2 := false }

/-- `init_frame_buffer`: every slot `i` gets `frame := i`, zero inputs,
both have-flags false. -/
def initFrameBuffer : List FrameInput :=
  (List.range NETPLAY_FRAME_BUFFER_SIZE).map
    (fun i => { frame := i, p1Input := 0, p2Input := 0, haveP1 := false, haveP2 := false })

/-- `Netplay_init`: the record after `memset` + the explicit field writes
(`mode = OFF`, `state = IDLE`, fds = -1, default port, status).  The
`NET_getLocalIP` refresh is environment-dependent; the zeroed value
`"0.0.0.0"` stands for its result here. -/
def netplayInit : Np where
  mode := .off
  state := .idle
  tcpConnected := false
  listenOpen := false
  udpOpen := false
  localIp := "0.0.0.0"
  remoteIp := ""
  port := 55435
  gameName := ""
  gameCrc := 0
  selfFrame := 0
  runFrame := 0
  otherFrame := 0
  frameBuffer := List.replicate NETPLAY_FRAME_BUFFER_SIZE default
  localInput := 0
  needsStateSync := false
  stateSyncComplete := false
  running := false
  statusMsg := .ready
  stallFrames := 0
  audioShouldSilence := false
  usingHotspot := false
  localPaused := false
  remotePaused := false

/-- `Netplay_startHost` on the success path (listen and broadcast socket
creation succeed; their failure paths only set an error status and return
`-1` without entering host mode).  Returns the record and the C return
value. -/
def netplayStartHost (np : Np) (gameName : String) (gameCrc : Nat)
    (hotspotIp : Option String) : Np × Int :=
  if np.mode ≠ .off then (np, -1)
  else
    let np :=
      match hotspotIp with
      | some ip => { np with usingHotspot := true, localIp := ip }
      | none => np
    let np := { np with listenOpen := true, udpOpen := true,
                        gameName := gameName, gameCrc := gameCrc,
                        running := true, mode := .host, state := .waiting,
                        needsStateSync := true, statusMsg := .hosting }
    (np, 0)

/-- `Netplay_stopBroadcast`: close the discovery UDP socket. -/
def netplayStopBroadcast (np : Np) : Np :=
  { np with udpOpen := false }

/-- `Netplay_restartBroadcast` (socket creation assumed to succeed; on
failure the C only sets an error status and leaves `udp_fd = -1`): the two
early returns — UDP already open, or not the host — leave the record
unchanged, otherwise the broadcast socket is reopened. -/
def netplayRestartBroadcast (np : Np) : Np :=
  if np.udpOpen = false ∧ np.mode = .host then { np with udpOpen := true } else np

/-- The accept branch of `listen_thread_func`: an incoming TCP connection
is accepted while the host is in `WAITING` (otherwise it is closed and
dropped). -/
def netplayAcceptClient (np : Np) (clientIp : String) : Np :=
  if np.state ≠ .waiting then np
  else
    { np with tcpConnected := true, remoteIp := clientIp,
              state := .syncing, needsStateSync := true,
              selfFrame := 0, runFrame := 0, otherFrame := 0,
              frameBuffer := initFrameBuffer,
              statusMsg := .clientConnected }

/-- `Netplay_isConnected`. -/
def netplayIsConnected (np : Np) : Bool :=
  np.tcpConnected &&
    (np.state = .syncing || np.state = .playing ||
     np.state = .stalled || np.state = .paused)

/-- `Netplay_disconnect`.  The returned `Bool` records whether a
`CMD_DISCONNECT` packet send was attempted (the C sends exactly when
`tcp_fd >= 0`). -/
def netplayDisconnect (np : Np) : Np × Bool :=
  let sent := np.tcpConnected
  let np := { np with tcpConnected := false,
                      audioShouldSilence := false,
                      localPaused := false, remotePaused := false }
  if np.mode = .client then
    ({ np with mode := .off, state := .disconnected, statusMsg := .disconnectedMsg }, sent)
  else if np.mode = .host then
    ({ np with state := .waiting, needsStateSync := true, stallFrames := 0,
               statusMsg := .clientLeftWaiting }, sent)
  else
    ({ np with state := .disconnected, statusMsg := .disconnectedMsg }, sent)

/-- One observation made by a `recv_packet` call inside `Netplay_preFrame`'s
receive loop.  `timeout` covers `select` timing out, `recv` errors that are
not fatal, and malformed packets (`size > 4096`), all of which make
`recv_packet` return false with no state change.  `closed` is `recv`
returning `0` or a fatal errno, which makes `recv_packet` run
`handle_recv_disconnect`.  `packet` is a successfully parsed packet (the
`frame` and 16-bit `input` fields matter only for `CMD_INPUT`). -/
inductive NpEvent
  | timeout
  | closed
  | packet (cmd : Nat) (frame : Nat) (input : Nat)
deriving DecidableEq, Repr

/-- Netplay command bytes (the `CMD_*` enum of `netplay.c`). -/
def NP_CMD_INPUT : Nat := 0x01
def NP_CMD_DISCONNECT : Nat := 0x08
def NP_CMD_PAUSE : Nat := 0x0A
def NP_CMD_RESUME : Nat := 0x0B
def NP_CMD_KEEPALIVE : Nat := 0x0C

/-- `handle_recv_disconnect` (called by `recv_packet` on a closed
connection): close the socket; a host returns to `WAITING`, resets the
sync/stall state and restarts the discovery broadcast; a client becomes
`DISCONNECTED`. -/
def handleRecvDisconnect (np : Np) : Np :=
  let np := { np with tcpConnected := false }
  if np.mode = .host then
    netplayRestartBroadcast
      { np with state := .waiting, needsStateSync := true, stallFrames := 0,
                statusMsg := .clientLeftWaiting }
  else
    { np with state := .disconnected, statusMsg := .remoteDisconnected }

/-- The `CMD_DISCONNECT` dispatch arm inside `Netplay_preFrame`'s receive
loop: close the socket, clear the audio flag; a host returns to `WAITING`
and restarts the broadcast, a client becomes `DISCONNECTED`. -/
def preFrameDisconnectCmd (np : Np) : Np :=
  let np := { np with tcpConnected := false, audioShouldSilence := false }
  if np.mode = .host then
    netplayRestartBroadcast
      { np with state := .waiting, needsStateSync := true, stallFrames := 0,
                statusMsg := .clientLeftWaiting }
  else
    { np with state := .disconnected, statusMsg := .hostDisconnected }

/-- Step 2 of `Netplay_preFrame`: refresh the `self_frame` slot if it is
aliased to an older frame, then store (and send) the local input into the
own-player half of that slot if not already stored.  The `CMD_INPUT` send
has no effect on the record. -/
def preFrameStoreInput (np : Np) : Np :=
  let islot := getFrameSlot np np.selfFrame
  let np := if islot.frame ≠ np.selfFrame then initFrameSlot np np.selfFrame else np
  let islot := getFrameSlot np np.selfFrame
  if np.mode = .host then
    if islot.haveP1 = false then
      setFrameSlot np np.selfFrame { islot with p1Input := np.localInput, haveP1 := true }
    else np
  else
    if islot.haveP2 = false then
      setFrameSlot np np.selfFrame { islot with p2Input := np.localInput, haveP2 := true }
    else np

/-- Whether the slot for `frame` has both players' inputs. -/
def slotComplete (np : Np) (frame : Nat) : Bool :=
  (getFrameSlot np frame).haveP1 && (getFrameSlot np frame).haveP2

/-- Result of one iteration of `Netplay_preFrame`'s receive loop:
`brk` is the `break` when the run slot is complete, `exit` is an early
`return` out of `Netplay_preFrame`, `next` continues the loop. -/
inductive NpStepRes
  | brk (np : Np) (rest : List NpEvent)
  | exit (np : Np) (result : Bool)
  | next (np : Np) (rest : List NpEvent)
deriving Repr

/-- One iteration of the receive loop in `Netplay_preFrame` (lines
609–682): break if the run slot is complete; otherwise perform one
`recv_packet` (which consumes the next event when the socket is open, and
returns immediately when it is not), then check for a disconnect that
happened during the recv, then dispatch the received command. -/
def preFrameStep (np : Np) (evs : List NpEvent) : NpStepRes :=
  if slotComplete np np.runFrame then .brk np evs
  else
    -- recv_packet: returns false at once when tcp_fd < 0 (consumes nothing)
    if np.tcpConnected = false then
      if np.state = .disconnected then
        .exit { np with audioShouldSilence := false } false
      else .next np evs
    else
      match evs with
      | [] =>
        -- select timed out: recv_packet returns false
        if np.state = .disconnected then
          .exit { np with audioShouldSilence := false } false
        else .next np []
      | .timeout :: rest =>
        if np.state = .disconnected then
          .exit { np with audioShouldSilence := false } false
        else .next np rest
      | .closed :: rest =>
        if (handleRecvDisconnect np).state = .disconnected then
          .exit { handleRecvDisconnect np with audioShouldSilence := false } false
        else .next (handleRecvDisconnect np) rest
      | .packet cmd frame input :: rest =>
        if np.state = .disconnected then
          .exit { np with audioShouldSilence := false } false
        else if cmd = NP_CMD_INPUT then
          let slot := getFrameSlot np frame
          let np :=
            if np.mode = .host then
              setFrameSlot np frame { slot with p2Input := input, haveP2 := true }
            else
              setFrameSlot np frame { slot with p1Input := input, haveP1 := true }
          .next np rest
        else if cmd = NP_CMD_DISCONNECT then
          .exit (preFrameDisconnectCmd np) false
        else if cmd = NP_CMD_PAUSE then
          .next { np with remotePaused := true, state := .paused,
                          statusMsg := .remotePausedMsg } rest
        else if cmd = NP_CMD_RESUME then
          let np := { np with remotePaused := false }
          let np :=
            if np.localPaused = false then
              { np with state := .playing, statusMsg := .active }
            else np
          .next np rest
        else
          -- CMD_KEEPALIVE and every other command: no state change
          .next np rest

/-- Outcome of the whole receive loop: `ret` is an early return out of
`Netplay_preFrame`, `cont` reaches the code after the loop. -/
inductive NpLoopExit
  | ret (np : Np) (result : Bool)
  | cont (np : Np) (rest : List NpEvent)
deriving Repr

/-- The receive loop of `Netplay_preFrame` (`max_attempts` iterations). -/
def preFrameLoop : Nat → Np → List NpEvent → NpLoopExit
  | 0, np, evs => .cont np evs
  | fuel + 1, np, evs =>
    match preFrameStep np evs with
    | .brk np rest => .cont np rest
    | .exit np r => .ret np r
    | .next np rest => preFrameLoop fuel np rest

/-- `Netplay_preFrame`.  The event list is what the successive
`recv_packet` calls observe.  Returns the new record and the C return
value (`true` = execute the frame).  The keepalive sent every
`NETPLAY_KEEPALIVE_INTERVAL_FRAMES` stalled frames does not change the
record and is not tracked here. -/
def netplayPreFrame (np : Np) (evs : List NpEvent) : Np × Bool :=
  if np.tcpConnected = false ∨
     (np.state ≠ .syncing ∧ np.state ≠ .playing ∧
      np.state ≠ .stalled ∧ np.state ≠ .paused) then
    (np, true)
  else
    let np := preFrameStoreInput np
    match preFrameLoop 10 np evs with
    | .ret np r => (np, r)
    | .cont np _ =>
      if slotComplete np np.runFrame then
        ({ np with stallFrames := 0, audioShouldSilence := false,
                   state := .playing }, true)
      else
        let np := { np with stallFrames := np.stallFrames + 1 }
        if np.localPaused = false ∧ np.remotePaused = false ∧
           np.stallFrames > NETPLAY_STALL_TIMEOUT_FRAMES then
          ({ np with statusMsg := .connectionTimeout, state := .disconnected,
                     audioShouldSilence := false }, false)
        else
          let np :=
            if np.localPaused = false ∧ np.remotePaused = false ∧
               np.stallFrames > NETPLAY_STALL_WARNING_FRAMES then
              { np with statusMsg :=
                  .waitingCountdown ((NETPLAY_STALL_TIMEOUT_FRAMES - np.stallFrames) / 60) }
            else np
          ({ np with state := .stalled, audioShouldSilence := true }, false)

/-- `Netplay_postFrame`. -/
def netplayPostFrame (np : Np) : Np :=
  if netplayIsConnected np = false then np
  else { np with runFrame := np.runFrame + 1, selfFrame := np.selfFrame + 1 }

/-- `Netplay_shouldSilenceAudio`: returns the cached flag. -/
def netplayShouldSilenceAudio (np : Np) : Bool :=
  np.audioShouldSilence

/-- `Netplay_pause`. -/
def netplayPause (np : Np) : Np :=
  if netplayIsConnected np = false then np
  else { np with localPaused := true, state := .paused, statusMsg := .pausedMsg }

/-- `Netplay_resume`. -/
def netplayResume (np : Np) : Np :=
  if netplayIsConnected np = false then np
  else
    let np := { np with localPaused := false }
    if np.remotePaused = false then
      { np with state := .playing, stallFrames := 0, statusMsg := .active }
    else
      { np with statusMsg := .waitingForRemote }

/-- `Netplay_completeStateSync`: mark sync done, seed the first
`NETPLAY_INPUT_LATENCY_FRAMES` slots with neutral complete inputs, reset
the frame pointers and the stall/audio state. -/
def netplayCompleteStateSync (np : Np) : Np :=
  let np := { np with needsStateSync := false, stateSyncComplete := true,
                      state := .playing }
  let np := (List.range NETPLAY_INPUT_LATENCY_FRAMES).foldl
    (fun np i =>
      setFrameSlot np i
        { frame := i, p1Input := 0, p2Input := 0, haveP1 := true, haveP2 := true })
    np
  { np with runFrame := 0, selfFrame := NETPLAY_INPUT_LATENCY_FRAMES,
            stallFrames := 0, audioShouldSilence := false, statusMsg := .active }

/-- `Netplay_update`.  `syncOk` summarises whether the state-sync exchange
(serialize + `Netplay_sendState`, or `Netplay_receiveState` + unserialize,
with the core callbacks available and a nonzero state size) succeeded.
Returns the record and the C return value (1 = run the frame). -/
def netplayUpdate (np : Np) (localInput : Nat) (evs : List NpEvent)
    (syncOk : Bool) : Np × Nat :=
  if np.needsStateSync ∧ np.state = .syncing then
    if syncOk then (netplayCompleteStateSync np, 0)
    else ((netplayDisconnect np).1, 0)
  else if np.state = .playing ∨ np.state = .stalled then
    let np := { np with localInput := localInput }
    match netplayPreFrame np evs with
    | (np, true) => (np, 1)
    | (np, false) =>
      if np.state = .disconnected then ((netplayDisconnect np).1, 1)
      else (np, 0)
  else (np, 1)

/-- The condition under which the host's `listen_thread_func` sends a
discovery broadcast on an iteration: the UDP socket is open and the
session is in `WAITING` (rate limiting aside). -/
def netplayListenThreadBroadcasts (np : Np) : Bool :=
  np.udpOpen && decide (np.state = .waiting)

/-! ## Discovery receive (`workspace/all/netplay/network_common.c`) -/

/-- `strncpy(dst, src, n - 1)` into a zeroed `char dst[n]`: keep at most
`n - 1` characters. -/
def truncStr (n : Nat) (s : String) : String :=
  s.take (n - 1)

/-- An entry of the caller-provided host list (`NET_HostInfo`). -/
structure NetHostInfo where
  gameName : String
  hostIp : String
  port : Nat
  gameCrc : Nat
  linkMode : String
deriving DecidableEq, Repr, Inhabited

/-- One datagram drained from the discovery UDP socket by
`NET_receiveDiscoveryResponses`.  `sizeOk` records whether `recvfrom`
returned exactly `sizeof(NET_DiscoveryPacket)` (anything else ends the
drain loop).  Fields are the decoded (host byte order) packet fields and
the `inet_ntop` rendering of the sender address. -/
structure NetDatagram where
  senderIp : String
  sizeOk : Bool
  magic : Nat
  gameName : String
  port : Nat
  gameCrc : Nat
  linkMode : String
deriving DecidableEq, Repr

/-- The host-list entry built for a fresh sender (lines 276–284 of
`network_common.c`): names truncated to the fixed field widths. -/
def mkHostInfo (d : NetDatagram) : NetHostInfo :=
  { gameName := truncStr 64 d.gameName
    hostIp := truncStr 16 d.senderIp
    port := d.port
    gameCrc := d.gameCrc
    linkMode := truncStr 32 d.linkMode }

/-- The body of `NET_receiveDiscoveryResponses`' drain loop for one
datagram whose size matched: skip on wrong magic; skip if the sender IP is
already listed; append if there is room. -/
def discoveryStep (expectedMagic : Nat) (maxHosts : Nat)
    (hosts : List NetHostInfo) (d : NetDatagram) : List NetHostInfo :=
  if d.magic ≠ expectedMagic then hosts
  else if hosts.any (fun h => h.hostIp = d.senderIp) then hosts
  else if hosts.length < maxHosts then hosts ++ [mkHostInfo d]
  else hosts

/-- `NET_receiveDiscoveryResponses`: drain the socket (the datagram list),
stopping at the first `recvfrom` that does not return a full packet, and
return the host list together with the C return value `*current_count`
(the list length, which the C keeps in `*current_count`). -/
def receiveDiscoveryResponses (expectedMagic : Nat) (maxHosts : Nat)
    (hosts : List NetHostInfo) : List NetDatagram → List NetHostInfo × Nat
  | [] => (hosts, hosts.length)
  | d :: rest =>
    if d.sizeOk = false then (hosts, hosts.length)
    else receiveDiscoveryResponses expectedMagic maxHosts
      (discoveryStep expectedMagic maxHosts hosts d) rest

/-! ## GBA Link transport (`workspace/all/netplay/gbalink.c`) -/

/-- `GBALinkMode`. -/
inductive GlMode
  | off
  | host
  | client
deriving DecidableEq, Repr, Inhabited

/-- `GBALinkState`. -/
inductive GlState
  | idle
  | waiting
  | connecting
  | connected
  | disconnected
  | error
deriving DecidableEq, Repr, Inhabited

/-- Status strings of `gbalink.c`, one constructor per format string. -/
inductive GlStatus
  | ready                -- "GBA Link ready"
  | hosting              -- "Hosting on <ip>:<port>"
  | clientConnected      -- "Client connected: <ip>"
  | connectingTo         -- "Connecting to <ip>:<port>..."
  | connectedTo          -- "Connected to <ip>"
  | disconnectedMsg      -- "Disconnected"
  | hostDisconnected     -- "Host disconnected"
  | clientLeftWaiting    -- "Client left, waiting on <ip>:<port>"
  | connectionLost       -- "Connection lost"
  | hostRejected         -- "Host rejected connection"
  | hostNotResponding    -- "Host not responding"
  | invalidIp            -- "Invalid IP address"
  | connectionFailed     -- "Connection failed"
  | socketFailed         -- "Socket creation failed"
  | broadcastFailed      -- "Failed to restart broadcast"
deriving DecidableEq, Repr, Inhabited

/-- `RECV_BUFFER_SIZE` (`gbalink.c`): the hard 2 KiB payload limit. -/
def RECV_BUFFER_SIZE : Nat := 2048

/-- `MAX_PENDING_PACKETS` (`gbalink.c`). -/
def MAX_PENDING_PACKETS : Nat := 32

/-- `sizeof(PacketHeader)` for the packed GBA Link header
`{uint8 cmd; uint16 size; uint16 client_id}`. -/
def GL_HEADER_SIZE : Nat := 5

/-- A `ReceivedPacket` slot of the pending queue.  `data` is the payload
prefix copied by `memcpy(pkt->data, data, hdr.size)`. -/
structure GlPacket where
  data : List Nat
  len : Nat
  clientId : Nat
deriving DecidableEq, Repr, Inhabited

/-- The pending-packet circular queue (fields `pending_packets`,
`pending_count`, `pending_read_idx`, `pending_write_idx` of `gl`). -/
structure GlQueue where
  slots : List GlPacket      -- MAX_PENDING_PACKETS entries
  count : Nat
  readIdx : Nat
  writeIdx : Nat
deriving DecidableEq, Repr

/-- The queue as left by `GBALink_init` / connection setup. -/
def glQueueInit : GlQueue :=
  { slots := List.replicate MAX_PENDING_PACKETS default,
    count := 0, readIdx := 0, writeIdx := 0 }

/-- The enqueue performed by `GBALink_pollReceive` for a `CMD_SIO_DATA`
packet (lines 1082–1089): guarded by `pending_count < MAX_PENDING_PACKETS`
and `hdr.size <= RECV_BUFFER_SIZE`; when the queue is full the packet is
dropped and the queue is untouched. -/
def glEnqueuePending (q : GlQueue) (pkt : GlPacket) : GlQueue :=
  if q.count < MAX_PENDING_PACKETS ∧ pkt.len ≤ RECV_BUFFER_SIZE then
    { q with slots := q.slots.set q.writeIdx pkt,
             writeIdx := (q.writeIdx + 1) % MAX_PENDING_PACKETS,
             count := q.count + 1 }
  else q

/-- `GBALink_popPendingPacket`: atomic get-and-consume, guarded by
`pending_count > 0` (`pending_count == 0` returns false). -/
def glPopPending (q : GlQueue) : Option GlPacket × GlQueue :=
  if q.count = 0 then (none, q)
  else
    (some (q.slots.getD q.readIdx default),
     { q with readIdx := (q.readIdx + 1) % MAX_PENDING_PACKETS,
              count := q.count - 1 })

/-- The operations that touch the pending queue during a session:
the producer's enqueue, the consumer's pop
(`GBALink_popPendingPacket` / `GBALink_getPendingPacket` +
`GBALink_consumePendingPacket`), and the resets done on connect /
disconnect (`pending_count = 0`, with indices reset only on connect). -/
inductive GlQueueOp
  | enqueue (pkt : GlPacket)
  | pop
  | connectReset          -- count/read/write all reset to 0
  | disconnectReset       -- only count reset to 0
deriving DecidableEq, Repr

/-- Apply one queue operation. -/
def glQueueApply (q : GlQueue) : GlQueueOp → GlQueue
  | .enqueue pkt => glEnqueuePending q pkt
  | .pop => (glPopPending q).2
  | .connectReset => { q with count := 0, readIdx := 0, writeIdx := 0 }
  | .disconnectReset => { q with count := 0 }

/-- Apply a sequence of queue operations. -/
def glQueueApplyAll (q : GlQueue) (ops : List GlQueueOp) : GlQueue :=
  ops.foldl glQueueApply q

/-- The GBA Link session record: the module-level `static struct ... gl`.
File descriptors are modelled by their open/closed status; the stream
buffer's byte contents are modelled separately (`GlStream`) and only its
indices live here; callbacks, the mutex and the thread handle are
omitted. -/
structure Gl where
  mode : GlMode
  state : GlState
  tcpConnected : Bool          -- tcp_fd >= 0
  listenOpen : Bool            -- listen_fd >= 0
  udpOpen : Bool               -- udp_fd >= 0
  udpListenOpen : Bool         -- udp_listen_fd >= 0
  localIp : String
  remoteIp : String
  port : Nat
  usingHotspot : Bool
  connectedToHotspot : Bool
  gameName : String
  gameCrc : Nat
  coreRegistered : Bool
  localClientId : Nat
  remoteClientId : Nat
  pendingQueue : GlQueue
  streamReadIdx : Nat
  streamWriteIdx : Nat
  statusMsg : GlStatus
  hasCoreCallbacks : Bool
  netpacketActive : Bool
  needsReload : Bool
  linkMode : String
  pendingLinkMode : String
  clientLinkMode : String
  lastPacketSent : Nat         -- microsecond timestamp
  lastPacketReceived : Nat
  running : Bool
deriving DecidableEq, Repr

/-- `GBALink_init` (core-callback flags are preserved across the memset;
here they start false).  `NET_getLocalIP` is environment-dependent; the
zeroed `"0.0.0.0"` stands for its result. -/
def glInit : Gl where
  mode := .off
  state := .idle
  tcpConnected := false
  listenOpen := false
  udpOpen := false
  udpListenOpen := false
  localIp := "0.0.0.0"
  remoteIp := ""
  port := 55437
  usingHotspot := false
  connectedToHotspot := false
  gameName := ""
  gameCrc := 0
  coreRegistered := false
  localClientId := 0
  remoteClientId := 0
  pendingQueue := glQueueInit
  streamReadIdx := 0
  streamWriteIdx := 0
  statusMsg := .ready
  hasCoreCallbacks := false
  netpacketActive := false
  needsReload := false
  linkMode := ""
  pendingLinkMode := ""
  clientLinkMode := ""
  lastPacketSent := 0
  lastPacketReceived := 0
  running := false

/-- `GBALink_isConnected`. -/
def glIsConnected (gl : Gl) : Bool :=
  gl.tcpConnected && decide (gl.state = .connected)

/-- `GBALink_notifyDisconnected`: when a netpacket session is active,
call the core's `disconnected` and `stop` callbacks (external) and
unregister (`GBALink_onNetpacketStop` clears `core_registered`). -/
def glNotifyDisconnected (gl : Gl) : Gl :=
  if gl.netpacketActive = false then gl
  else { gl with netpacketActive := false, coreRegistered := false }

/-- `GBALink_notifyConnected is_host`: when core callbacks are registered
and no netpacket session is active, start one (`start` callback, ids, and
`GBALink_onNetpacketStart` which sets `core_registered`). -/
def glNotifyConnected (gl : Gl) (isHost : Bool) : Gl :=
  if gl.hasCoreCallbacks = false ∨ gl.netpacketActive then gl
  else
    { gl with localClientId := if isHost then 0 else 1,
              remoteClientId := if isHost then 1 else 0,
              netpacketActive := true,
              coreRegistered := true }

/-- `GBALink_disconnect`.  The returned `Bool` records whether a
`CMD_DISCONNECT` send was attempted (exactly when `tcp_fd >= 0`). -/
def gbalinkDisconnect (gl : Gl) : Gl × Bool :=
  let prevMode := gl.mode
  let gl := glNotifyDisconnected gl
  let sent := gl.tcpConnected
  let gl := { gl with tcpConnected := false, coreRegistered := false }
  let gl :=
    if prevMode = .client then
      { gl with mode := .off, state := .disconnected,
                statusMsg := .disconnectedMsg, localIp := "0.0.0.0",
                connectedToHotspot := false }
    else if prevMode = .host then
      { gl with state := .waiting, statusMsg := .clientLeftWaiting }
    else
      { gl with mode := .off, state := .disconnected, statusMsg := .disconnectedMsg }
  ({ gl with pendingQueue := { gl.pendingQueue with count := 0 },
             streamReadIdx := 0, streamWriteIdx := 0 }, sent)

/-! ### Streaming receive parser (`recv_packet`, `gbalink.c` lines 1519–1563)

`recv_packet` first refills `stream_buf` from the socket (network effect)
and then parses one packet in place.  The parse phase is pure in the
buffer contents and the two indices, so it is embedded on its own over a
`GlStream` value: `data i` is the byte at offset `i` of `gl.stream_buf`. -/

/-- The stream buffer: contents plus the read/write indices
(`gl.stream_buf`, `gl.stream_buf_read_idx`, `gl.stream_buf_write_idx`). -/
structure GlStream where
  data : Nat → Nat
  readIdx : Nat
  writeIdx : Nat

/-- `sizeof(gl.stream_buf)` = `RECV_BUFFER_SIZE + sizeof(PacketHeader)`. -/
def GL_STREAM_CAPACITY : Nat := RECV_BUFFER_SIZE + GL_HEADER_SIZE

/-- The `size` field a header starting at `s.readIdx` declares
(`ntohs` of the two bytes at offsets 1–2: big-endian on the wire). -/
def glDeclaredSize (s : GlStream) : Nat :=
  s.data (s.readIdx + 1) * 256 + s.data (s.readIdx + 2)

/-- The `client_id` field of the header at `s.readIdx` (`ntohs` of the
bytes at offsets 3–4). -/
def glDeclaredClientId (s : GlStream) : Nat :=
  s.data (s.readIdx + 3) * 256 + s.data (s.readIdx + 4)

/-- A parsed packet: header fields plus the payload bytes
(`payload i` = byte `i` of the `memcpy`-ed payload). -/
structure GlParsed where
  cmd : Nat
  size : Nat
  clientId : Nat
  payload : Nat → Nat

/-- The parse phase of `recv_packet` (lines 1519–1557): needs a full
header; rejects a declared size above the caller's `max_size` or above
`RECV_BUFFER_SIZE` by resetting both indices (protocol error, buffered
data discarded); needs the full payload; otherwise copies the payload
out, advances `read_idx` past the packet, and resets both indices when
the buffer became empty.  Returns the packet (if any) and the new buffer
state. -/
def glRecvParse (s : GlStream) (maxSize : Nat) : Option GlParsed × GlStream :=
  let available := s.writeIdx - s.readIdx
  if available < GL_HEADER_SIZE then (none, s)
  else
    let cmd := s.data s.readIdx
    let size := glDeclaredSize s
    let clientId := glDeclaredClientId s
    if size > maxSize ∨ size > RECV_BUFFER_SIZE then
      (none, { s with readIdx := 0, writeIdx := 0 })
    else
      let total := GL_HEADER_SIZE + size
      if available < total then (none, s)
      else
        let payload := fun i => s.data (s.readIdx + GL_HEADER_SIZE + i)
        let newRead := s.readIdx + total
        let s' :=
          if newRead = s.writeIdx then { s with readIdx := 0, writeIdx := 0 }
          else { s with readIdx := newRead }
        (some { cmd := cmd, size := size, clientId := clientId, payload := payload }, s')

/-- `compact_stream_buffer_if_needed`: move `[read_idx, write_idx)` to
offset 0 when the tail has less than `minSpaceNeeded` free bytes, the
read index is past half the capacity, and there is data to move. -/
def glCompactIfNeeded (s : GlStream) (minSpaceNeeded : Nat) : GlStream :=
  let available := s.writeIdx - s.readIdx
  let spaceAtEnd := GL_STREAM_CAPACITY - s.writeIdx
  if spaceAtEnd < minSpaceNeeded ∧ s.readIdx > GL_STREAM_CAPACITY / 2 ∧
     available > 0 then
    { data := fun i => if i < available then s.data (s.readIdx + i) else s.data i,
      readIdx := 0, writeIdx := available }
  else s

/-! ### Blocking send (`send_all` / `send_packet` / `GBALink_sendPacket`) -/

/-- Outcome of one `send(fd, p, len, MSG_NOSIGNAL | MSG_DONTWAIT)` call:
`sent n` is a return of `n` bytes (`n = 0` "should not happen" and makes
`send_all` fail), `again` is `EAGAIN`/`EWOULDBLOCK`, `err` is any other
error. -/
inductive SendStep
  | sent (n : Nat)
  | again
  | err
deriving DecidableEq, Repr

/-- What a finished `send_all` did: whether it succeeded, how many times
it drained the receive side while blocked, how many microseconds it spent
in the 1 ms sleeps, and the unconsumed send outcomes. -/
structure SendAllResult where
  ok : Bool
  drains : Nat
  sleptUs : Nat
  rest : List SendStep
deriving DecidableEq, Repr

/-- `max_wait_us` in `send_all`: 2 seconds. -/
def SEND_ALL_MAX_WAIT_US : Nat := 2000000

/-- The loop of `send_all` (lines 1335–1363).  `totalWait` is
`total_wait_us`.  On a successful partial send the wait budget resets; on
`EAGAIN` the budget is checked first, then the receive side is drained
and 1 ms is slept.  `none` means the outcome trace ended while bytes
remained (the behaviour is then determined by further socket outcomes). -/
def sendAllAux : Nat → Nat → Nat → Nat → List SendStep → Option SendAllResult
  | _, drains, slept, 0, steps => some { ok := true, drains, sleptUs := slept, rest := steps }
  | _, _, _, _ + 1, [] => none
  | totalWait, drains, slept, len + 1, step :: rest =>
    match step with
    | .sent n =>
      if n = 0 then some { ok := false, drains, sleptUs := slept, rest }
      else sendAllAux 0 drains slept (len + 1 - n) rest
    | .again =>
      if totalWait ≥ SEND_ALL_MAX_WAIT_US then
        some { ok := false, drains, sleptUs := slept, rest }
      else
        sendAllAux (totalWait + 1000) (drains + 1) (slept + 1000) (len + 1) rest
    | .err => some { ok := false, drains, sleptUs := slept, rest }

/-- `send_all(fd, buf, len)` over a trace of send outcomes. -/
def sendAll (len : Nat) (steps : List SendStep) : Option SendAllResult :=
  sendAllAux 0 0 0 len steps

/-- `send_packet` (lines 1404–1437): send the 5-byte header with
`send_all`, then the payload; the fd revalidation after the mutex
reacquire is the identity in this sequential model.  Returns whether the
send succeeded and the remaining outcome trace (`none` = trace
exhausted). -/
def glSendPacketRaw (size : Nat) (steps : List SendStep) :
    Option (Bool × List SendStep) :=
  match sendAll GL_HEADER_SIZE steps with
  | none => none
  | some r1 =>
    if r1.ok then
      if size > 0 then
        match sendAll size r1.rest with
        | none => none
        | some r2 => some (r2.ok, r2.rest)
      else some (true, r1.rest)
    else some (false, r1.rest)

/-- `GBALink_sendPacket` (lines 1005–1028): drop the call when not
connected or when it is an empty flush; otherwise send a `CMD_SIO_DATA`
packet, and on failure disconnect the session; on success stamp
`last_packet_sent` with the current time. -/
def glSendPacketOp (gl : Gl) (len : Nat) (steps : List SendStep) (now : Nat) :
    Option Gl :=
  if glIsConnected gl = false then some gl
  else if len = 0 then some gl
  else
    match glSendPacketRaw len steps with
    | none => none
    | some (ok, _) =>
      if ok then some { gl with lastPacketSent := now }
      else some (gbalinkDisconnect gl).1

/-! ### Client handshake (`GBALink_connectToHost`, lines 679–831) -/

/-- One observation of the client's handshake receive loop.  `ready m`
is a `CMD_READY` whose payload, when its size is in `(0, 64)`, is the
NUL-terminated link-mode string `m` (a zero-size payload or an empty
string both yield `m = ""`, which skips the link-mode comparison, exactly
as `host_link_mode[0]` being NUL does).  `disconnectCmd` is a
`CMD_DISCONNECT`; `timeout` a `recv_packet` returning false; `other` any
other command (ignored by the loop). -/
inductive HsEvent
  | timeout
  | ready (linkMode : String)
  | disconnectCmd
  | other
deriving DecidableEq, Repr

/-- How the handshake wait loop ended: `rejected` is the in-loop return
on `CMD_DISCONNECT`; `done` carries whether the host's READY arrived and
whether a link-mode reload is needed. -/
inductive HsExit
  | rejected (gl : Gl)
  | done (gl : Gl) (hostReady : Bool) (needsReload : Bool)
deriving Repr

/-- The wait-for-host-READY loop (lines 762–805), 100 attempts.
`clientMode` is `minarch_getCoreOptionValue("gpsp_serial")` (`none` when
the option is absent).  On a READY carrying a non-empty link mode that
the client's option misses or differs from, the pending/client modes are
recorded (with `strncpy` truncation to the 32-byte fields, and `"auto"`
for an absent option) and `needs_reload` is set. -/
def glHandshakeLoop : Nat → Gl → Option String → List HsEvent → HsExit
  | 0, gl, _, _ => .done gl false false
  | fuel + 1, gl, clientMode, evs =>
    match evs with
    | [] => glHandshakeLoop fuel gl clientMode []
    | ev :: rest =>
      match ev with
      | .timeout => glHandshakeLoop fuel gl clientMode rest
      | .other => glHandshakeLoop fuel gl clientMode rest
      | .disconnectCmd =>
        .rejected { gl with tcpConnected := false, mode := .off, state := .error,
                            statusMsg := .hostRejected }
      | .ready m =>
        if m ≠ "" then
          match clientMode with
          | none =>
            .done { gl with pendingLinkMode := truncStr 32 m,
                            clientLinkMode := truncStr 32 "auto",
                            needsReload := true } true true
          | some cm =>
            if cm ≠ m then
              .done { gl with pendingLinkMode := truncStr 32 m,
                              clientLinkMode := truncStr 32 cm,
                              needsReload := true } true true
            else .done gl true false
        else .done gl true false

/-- The successful-TCP-connect part of `GBALink_connectToHost` (socket
creation, `inet_pton` and `connect` succeed): configure and record the
connection, reset the queue and stream indices, stamp the packet
timestamps, and send the client's `CMD_READY`. -/
def glConnectStart (gl : Gl) (ip : String) (port : Nat) (now : Nat) : Gl :=
  { gl with state := .connected, mode := .client, tcpConnected := true,
            remoteIp := truncStr 16 ip, port := port, localClientId := 1,
            pendingQueue := { gl.pendingQueue with count := 0, readIdx := 0, writeIdx := 0 },
            streamReadIdx := 0, streamWriteIdx := 0,
            lastPacketSent := now, lastPacketReceived := now,
            statusMsg := .connectedTo }

/-- The `GBALINK_CONNECT_*` return codes of `GBALink_connectToHost`. -/
inductive GlConnectResult
  | ok            -- GBALINK_CONNECT_OK (0)
  | error         -- GBALINK_CONNECT_ERROR (-1)
  | needsReload   -- GBALINK_CONNECT_NEEDS_RELOAD (1)
deriving DecidableEq, Repr

/-- `GBALink_connectToHost` over a trace of handshake observations, on
the path where the TCP connect itself succeeds.  On `NEEDS_RELOAD` the
netpacket session is *not* started (`GBALink_notifyConnected` is only
called on the `CONNECT_OK` path). -/
def glConnectToHost (gl : Gl) (ip : String) (port : Nat) (now : Nat)
    (clientMode : Option String) (evs : List HsEvent) : Gl × GlConnectResult :=
  if gl.mode ≠ .off then (gl, .error)
  else
    let gl := glConnectStart gl ip port now
    match glHandshakeLoop 100 gl clientMode evs with
    | .rejected gl => (gl, .error)
    | .done gl hostReady nr =>
      if hostReady = false then
        ({ gl with tcpConnected := false, mode := .off, state := .error,
                   statusMsg := .hostNotResponding }, .error)
      else if nr then (gl, .needsReload)
      else (glNotifyConnected gl false, .ok)

/-! ## Concrete states used by the witnesses and counterexamples -/

/-- A host-side Netplay session that has been stalled for `s` frames:
the shape reached after `startHost`, an accepted client, a completed
state sync, a `Netplay_stopBroadcast` (the helper calls it once the
connection is up, closing the discovery socket), some played frames and
then `s` consecutive stalled `preFrame` calls. -/
def npStalledHost (s : Nat) : Np :=
  { netplayInit with
      mode := .host, state := .stalled, tcpConnected := true,
      listenOpen := true, udpOpen := false, running := true,
      needsStateSync := false, stateSyncComplete := true,
      remoteIp := "192.168.1.2",
      runFrame := 50, selfFrame := 52,
      frameBuffer := initFrameBuffer,
      stallFrames := s, audioShouldSilence := true,
      statusMsg := .waitingCountdown 1 }

/-- A Netplay session driven from `Netplay_init` through the public
operations: host start, client accept, state sync, two executed frames,
one stalled frame (the peer stops sending), then the local player opens
the menu (`Netplay_pause`). -/
def npPausedAfterStall : Np :=
  let np := (netplayStartHost netplayInit "game" 7 none).1
  let np := netplayAcceptClient np "192.168.1.2"
  let np := netplayCompleteStateSync np
  let np := (netplayPreFrame np []).1
  let np := netplayPostFrame np
  let np := (netplayPreFrame np []).1
  let np := netplayPostFrame np
  let np := (netplayPreFrame np []).1
  netplayPause np

/-- A connected client-side GBA Link session (the shape produced by
`GBALink_connectToHost` when the handshake found matching link modes). -/
def glConnectedClient : Gl :=
  { glInit with
      mode := .client, state := .connected, tcpConnected := true,
      remoteIp := "10.0.0.1", localClientId := 1, remoteClientId := 0,
      hasCoreCallbacks := true, netpacketActive := true, coreRegistered := true,
      statusMsg := .connectedTo }

/-- A full pending queue (32 queued packets). -/
def glFullQueue : GlQueue :=
  { slots := List.replicate MAX_PENDING_PACKETS { data := [1], len := 1, clientId := 1 },
    count := MAX_PENDING_PACKETS, readIdx := 3, writeIdx := 3 }

/-- A stream buffer holding one complete packet whose header declares a
2048-byte payload (`cmd = 1`, size bytes `0x08 0x00`, client id 1,
payload byte `i` equal to `i % 256`). -/
def glStream2048 : GlStream :=
  { data := fun i =>
      if i = 0 then 1
      else if i = 1 then 8
      else if i = 2 then 0
      else if i = 3 then 0
      else if i = 4 then 1
      else (i - GL_HEADER_SIZE) % 256,
    readIdx := 0, writeIdx := GL_HEADER_SIZE + 2048 }

/-- A stream buffer whose next header declares a 2049-byte payload
(size bytes `0x08 0x01`). -/
def glStream2049 : GlStream :=
  { data := fun i =>
      if i = 0 then 1
      else if i = 1 then 8
      else if i = 2 then 1
      else if i = 3 then 0
      else if i = 4 then 1
      else 0,
    readIdx := 0, writeIdx := GL_HEADER_SIZE }

/-- A discovery host list holding one entry. -/
def discoveryOneHost : List NetHostInfo :=
  [{ gameName := "POKEMON", hostIp := "192.168.1.5", port := 55437,
     gameCrc := 10, linkMode := "rfu" }]

/-- A datagram from the already-listed sender, advertising different
metadata. -/
def discoveryDupDatagram : NetDatagram :=
  { senderIp := "192.168.1.5", sizeOk := true, magic := 99,
    gameName := "OTHER", port := 1, gameCrc := 2, linkMode := "mul_poke" }

/-- A datagram from a new sender. -/
def discoveryNewDatagram : NetDatagram :=
  { senderIp := "192.168.1.9", sizeOk := true, magic := 99,
    gameName := "THIRD", port := 3, gameCrc := 4, linkMode := "" }

/-! ## Helper lemmas -/

theorem preFrameStoreInput_fields (np : Np) :
    (preFrameStoreInput np).mode = np.mode ∧
    (preFrameStoreInput np).state = np.state ∧
    (preFrameStoreInput np).tcpConnected = np.tcpConnected ∧
    (preFrameStoreInput np).udpOpen = np.udpOpen ∧
    (preFrameStoreInput np).runFrame = np.runFrame ∧
    (preFrameStoreInput np).stallFrames = np.stallFrames ∧
    (preFrameStoreInput np).localPaused = np.localPaused ∧
    (preFrameStoreInput np).remotePaused = np.remotePaused := by
  simp only [preFrameStoreInput, initFrameSlot, setFrameSlot]
  repeat' split
  all_goals exact ⟨rfl, rfl, rfl, rfl, rfl, rfl, rfl, rfl⟩

theorem netplayRestartBroadcast_fields (np : Np) :
    (netplayRestartBroadcast np).mode = np.mode ∧
    (netplayRestartBroadcast np).state = np.state ∧
    (netplayRestartBroadcast np).tcpConnected = np.tcpConnected ∧
    (netplayRestartBroadcast np).stallFrames = np.stallFrames ∧
    (netplayRestartBroadcast np).needsStateSync = np.needsStateSync ∧
    (netplayRestartBroadcast np).audioShouldSilence = np.audioShouldSilence ∧
    (netplayRestartBroadcast np).statusMsg = np.statusMsg := by
  unfold netplayRestartBroadcast
  split
  · exact ⟨rfl, rfl, rfl, rfl, rfl, rfl, rfl⟩
  · exact ⟨rfl, rfl, rfl, rfl, rfl, rfl, rfl⟩

theorem netplayRestartBroadcast_udp_of_host (np : Np) (h : np.mode = .host) :
    (netplayRestartBroadcast np).udpOpen = true := by
  cases hu : np.udpOpen with
  | false => simp [netplayRestartBroadcast, h, hu]
  | true => simp [netplayRestartBroadcast, hu]

theorem preFrameDisconnectCmd_host (np : Np) (h : np.mode = .host) :
    (preFrameDisconnectCmd np).state = .waiting ∧
    (preFrameDisconnectCmd np).udpOpen = true ∧
    (preFrameDisconnectCmd np).needsStateSync = true ∧
    (preFrameDisconnectCmd np).stallFrames = 0 ∧
    (preFrameDisconnectCmd np).audioShouldSilence = false ∧
    (preFrameDisconnectCmd np).tcpConnected = false ∧
    (preFrameDisconnectCmd np).statusMsg = .clientLeftWaiting := by
  cases hu : np.udpOpen with
  | false => simp [preFrameDisconnectCmd, netplayRestartBroadcast, h, hu]
  | true => simp [preFrameDisconnectCmd, netplayRestartBroadcast, h, hu]

theorem preFrameDisconnectCmd_client (np : Np) (h : ¬ np.mode = .host) :
    (preFrameDisconnectCmd np).state = .disconnected ∧
    (preFrameDisconnectCmd np).audioShouldSilence = false ∧
    (preFrameDisconnectCmd np).tcpConnected = false ∧
    (preFrameDisconnectCmd np).statusMsg = .hostDisconnected := by
  simp [preFrameDisconnectCmd, h]

theorem preFrameDisconnectCmd_audio_state (np : Np) :
    (preFrameDisconnectCmd np).audioShouldSilence = false ∧
    (preFrameDisconnectCmd np).state ≠ .stalled := by
  by_cases h : np.mode = .host
  · have := preFrameDisconnectCmd_host np h
    exact ⟨this.2.2.2.2.1, by rw [this.1]; exact fun hc => NpState.noConfusion hc⟩
  · have := preFrameDisconnectCmd_client np h
    exact ⟨this.2.1, by rw [this.1]; exact fun hc => NpState.noConfusion hc⟩

/-- When the receive loop has no pending observations and the socket is
open in a non-disconnected state, every iteration times out and the loop
falls through unchanged. -/
theorem preFrameLoop_nil (fuel : Nat) (np : Np)
    (hc : np.tcpConnected = true) (hd : np.state ≠ .disconnected) :
    preFrameLoop fuel np [] = .cont np [] := by
  induction fuel with
  | zero => rfl
  | succ n ih =>
    unfold preFrameLoop preFrameStep
    by_cases hs : slotComplete np np.runFrame
    · simp [hs]
    · simp [hs, hc, hd, ih]

/-- Every early `return` taken inside the receive loop leaves the audio
flag cleared, a phase other than `Stalled`, and returns false. -/
theorem preFrameStep_exit (np np' : Np) (evs : List NpEvent) (r : Bool)
    (h : preFrameStep np evs = .exit np' r) :
    np'.audioShouldSilence = false ∧ np'.state ≠ .stalled ∧ r = false := by
  unfold preFrameStep at h
  repeat' split at h
  all_goals first
    | exact NpStepRes.noConfusion h
    | (injection h with h1 h2
       subst h1
       subst h2
       rename_i hdisc
       refine ⟨rfl, ?_, rfl⟩
       simp only []
       rw [hdisc]
       exact fun hc => NpState.noConfusion hc)
    | (injection h with h1 h2
       subst h1
       subst h2
       exact ⟨(preFrameDisconnectCmd_audio_state np).1,
              (preFrameDisconnectCmd_audio_state np).2, rfl⟩)

/-- Every early `return` of the whole receive loop satisfies the same
property. -/
theorem preFrameLoop_ret (fuel : Nat) (np np' : Np) (evs : List NpEvent)
    (r : Bool) (h : preFrameLoop fuel np evs = .ret np' r) :
    np'.audioShouldSilence = false ∧ np'.state ≠ .stalled ∧ r = false := by
  induction fuel generalizing np evs with
  | zero => exact NpLoopExit.noConfusion h
  | succ n ih =>
    unfold preFrameLoop at h
    cases hstep : preFrameStep np evs with
    | brk np2 rest => rw [hstep] at h; exact NpLoopExit.noConfusion h
    | exit np2 r2 =>
      rw [hstep] at h
      injection h with h1 h2
      subst h1; subst h2
      exact preFrameStep_exit np np2 evs r2 hstep
    | next np2 rest => rw [hstep] at h; exact ih np2 rest h

/-- Reduction of `Netplay_preFrame` on a frame where nothing is received
(all ten attempts time out) and the run slot stays incomplete: the stall
bookkeeping of step 4 of the pre-frame contract. -/
theorem netplayPreFrame_nil_reduce (np : Np)
    (hc : np.tcpConnected = true)
    (hs : np.state = .syncing ∨ np.state = .playing ∨
          np.state = .stalled ∨ np.state = .paused)
    (hmiss : slotComplete (preFrameStoreInput np) np.runFrame = false) :
    netplayPreFrame np [] =
      (if np.localPaused = false ∧ np.remotePaused = false ∧
          np.stallFrames + 1 > NETPLAY_STALL_TIMEOUT_FRAMES then
        ({ preFrameStoreInput np with
            stallFrames := np.stallFrames + 1
            statusMsg := .connectionTimeout
            state := .disconnected
            audioShouldSilence := false }, false)
      else if np.localPaused = false ∧ np.remotePaused = false ∧
          np.stallFrames + 1 > NETPLAY_STALL_WARNING_FRAMES then
        ({ preFrameStoreInput np with
            stallFrames := np.stallFrames + 1
            statusMsg := .waitingCountdown
              ((NETPLAY_STALL_TIMEOUT_FRAMES - (np.stallFrames + 1)) / 60)
            state := .stalled
            audioShouldSilence := true }, false)
      else
        ({ preFrameStoreInput np with
            stallFrames := np.stallFrames + 1
            state := .stalled
            audioShouldSilence := true }, false)) := by
  obtain ⟨hm, hst, htc, hud, hrf, hsf, hlp', hrp'⟩ := preFrameStoreInput_fields np
  have hpass : ¬(np.tcpConnected = false ∨
      (np.state ≠ .syncing ∧ np.state ≠ .playing ∧
       np.state ≠ .stalled ∧ np.state ≠ .paused)) := by
    rcases hs with h | h | h | h <;> simp [hc, h]
  have htc' : (preFrameStoreInput np).tcpConnected = true := htc.trans hc
  have hst' : (preFrameStoreInput np).state ≠ .disconnected := by
    rw [hst]; rcases hs with h | h | h | h <;> rw [h] <;>
      exact fun hcon => NpState.noConfusion hcon
  unfold netplayPreFrame
  rw [if_neg hpass]
  dsimp only
  rw [preFrameLoop_nil 10 (preFrameStoreInput np) htc' hst']
  dsimp only
  simp only [hrf, hmiss, hsf, hlp', hrp', Bool.false_eq_true, if_false]
  split <;> first
    | rfl
    | (split <;> rfl)

/-! ## Claims -/

/-- C1.  Netplay stall timeout boundary: when `Netplay_preFrame` runs in a
connected running phase with neither player paused, receives nothing, and
the run slot stays incomplete, the stall counter is incremented; entering
the call with `stall_frames = 179` (the 180th consecutive stalled frame)
yields phase `Stalled`, a countdown status (`"Waiting... (0s)"`) and a
false return; entering with `stall_frames = 180` trips
`stall_frames > NETPLAY_STALL_TIMEOUT_FRAMES` and yields phase
`Disconnected` with a false return; and for any counter that stays at or
below the 180-frame threshold after the increment the phase becomes
`Stalled` and the call returns false without disconnecting. -/
theorem netplay_stall_timeout_boundary (np : Np)
    (hc : np.tcpConnected = true)
    (hs : np.state = .syncing ∨ np.state = .playing ∨
          np.state = .stalled ∨ np.state = .paused)
    (hlp : np.localPaused = false) (hrp : np.remotePaused = false)
    (hmiss : slotComplete (preFrameStoreInput np) np.runFrame = false) :
    (np.stallFrames = 179 →
      (netplayPreFrame np []).2 = false ∧
      (netplayPreFrame np []).1.state = .stalled ∧
      (netplayPreFrame np []).1.statusMsg = .waitingCountdown 0) ∧
    (np.stallFrames = 180 →
      (netplayPreFrame np []).2 = false ∧
      (netplayPreFrame np []).1.state = .disconnected ∧
      (netplayPreFrame np []).1.statusMsg = .connectionTimeout) ∧
    (np.stallFrames + 1 ≤ NETPLAY_STALL_TIMEOUT_FRAMES →
      (netplayPreFrame np []).2 = false ∧
      (netplayPreFrame np []).1.state = .stalled ∧
      (netplayPreFrame np []).1.stallFrames = np.stallFrames + 1) := by
  rw [netplayPreFrame_nil_reduce np hc hs hmiss]
  refine ⟨?_, ?_, ?_⟩
  · intro h179
    rw [h179]
    simp [hlp, hrp, NETPLAY_STALL_TIMEOUT_FRAMES, NETPLAY_STALL_WARNING_FRAMES]
  · intro h180
    rw [h180]
    simp [hlp, hrp, NETPLAY_STALL_TIMEOUT_FRAMES, NETPLAY_STALL_WARNING_FRAMES]
  · intro hle
    have hgt : ¬(np.localPaused = false ∧ np.remotePaused = false ∧
        np.stallFrames + 1 > NETPLAY_STALL_TIMEOUT_FRAMES) := by
      intro hcon
      exact absurd hcon.2.2 (by omega)
    rw [if_neg hgt]
    split
    · exact ⟨rfl, rfl, rfl⟩
    · exact ⟨rfl, rfl, rfl⟩

/-- Witness for C1 at the concrete stalled-host states with counters 179,
180 and 50. -/
theorem netplay_stall_timeout_boundary_witness :
    ((netplayPreFrame (npStalledHost 179) []).2 = false ∧
     (netplayPreFrame (npStalledHost 179) []).1.state = .stalled ∧
     (netplayPreFrame (npStalledHost 179) []).1.statusMsg = .waitingCountdown 0) ∧
    ((netplayPreFrame (npStalledHost 180) []).2 = false ∧
     (netplayPreFrame (npStalledHost 180) []).1.state = .disconnected ∧
     (netplayPreFrame (npStalledHost 180) []).1.statusMsg = .connectionTimeout) ∧
    ((netplayPreFrame (npStalledHost 50) []).2 = false ∧
     (netplayPreFrame (npStalledHost 50) []).1.state = .stalled ∧
     (netplayPreFrame (npStalledHost 50) []).1.stallFrames = 51) := by
  refine ⟨?_, ?_, ?_⟩
  · exact (netplay_stall_timeout_boundary (npStalledHost 179) rfl
      (Or.inr (Or.inr (Or.inl rfl))) rfl rfl (by decide)).1 rfl
  · exact ((netplay_stall_timeout_boundary (npStalledHost 180) rfl
      (Or.inr (Or.inr (Or.inl rfl))) rfl rfl (by decide)).2.1 rfl)
  · exact ((netplay_stall_timeout_boundary (npStalledHost 50) rfl
      (Or.inr (Or.inr (Or.inl rfl))) rfl rfl (by decide)).2.2 (by decide))

/-- C2.  `CMD_DISCONNECT` dispatch in `Netplay_preFrame`'s receive loop:
whenever the loop's next observation from any open, non-disconnected
session whose run slot is incomplete is a `DISCONNECT` command, the loop
returns early with result `false`; the socket is closed; a host
transitions to `Waiting` with the broadcast socket reopened and a fresh
state sync pending, while a client transitions to `Disconnected`.  The
final conjunct states the same at the level of the whole
`Netplay_preFrame` call: it returns false. -/
theorem netplay_disconnect_cmd_dispatch (np : Np) (fuel f inp : Nat)
    (rest : List NpEvent)
    (hc : np.tcpConnected = true)
    (hd : np.state ≠ .disconnected)
    (hmiss : slotComplete np np.runFrame = false) :
    preFrameLoop (fuel + 1) np (.packet NP_CMD_DISCONNECT f inp :: rest) =
      .ret (preFrameDisconnectCmd np) false ∧
    (preFrameDisconnectCmd np).tcpConnected = false ∧
    (np.mode = .host →
      (preFrameDisconnectCmd np).state = .waiting ∧
      (preFrameDisconnectCmd np).udpOpen = true ∧
      (preFrameDisconnectCmd np).needsStateSync = true) ∧
    (np.mode = .client →
      (preFrameDisconnectCmd np).state = .disconnected) ∧
    (∀ np0 : Np, np0.tcpConnected = true →
      (np0.state = .syncing ∨ np0.state = .playing ∨
       np0.state = .stalled ∨ np0.state = .paused) →
      slotComplete (preFrameStoreInput np0) np0.runFrame = false →
      netplayPreFrame np0 (.packet NP_CMD_DISCONNECT f inp :: rest) =
        (preFrameDisconnectCmd (preFrameStoreInput np0), false)) := by
  have hstep : ∀ np1 : Np, np1.tcpConnected = true → np1.state ≠ .disconnected →
      slotComplete np1 np1.runFrame = false →
      preFrameStep np1 (.packet NP_CMD_DISCONNECT f inp :: rest) =
        .exit (preFrameDisconnectCmd np1) false := by
    intro np1 h1 h2 h3
    unfold preFrameStep
    simp [h1, h2, h3, NP_CMD_INPUT, NP_CMD_DISCONNECT]
  refine ⟨?_, ?_, ?_, ?_, ?_⟩
  · unfold preFrameLoop
    rw [hstep np hc hd hmiss]
  · by_cases hm : np.mode = .host
    · exact (preFrameDisconnectCmd_host np hm).2.2.2.2.2.1
    · exact (preFrameDisconnectCmd_client np hm).2.2.1
  · intro hm
    exact ⟨(preFrameDisconnectCmd_host np hm).1,
           (preFrameDisconnectCmd_host np hm).2.1,
           (preFrameDisconnectCmd_host np hm).2.2.1⟩
  · intro hm
    have hnh : ¬ np.mode = .host := by rw [hm]; exact fun h => NpMode.noConfusion h
    exact (preFrameDisconnectCmd_client np hnh).1
  · intro np0 h1 h2 h3
    obtain ⟨hm0, hst0, htc0, _, hrf0, _, _, _⟩ := preFrameStoreInput_fields np0
    have hpass : ¬(np0.tcpConnected = false ∨
        (np0.state ≠ .syncing ∧ np0.state ≠ .playing ∧
         np0.state ≠ .stalled ∧ np0.state ≠ .paused)) := by
      rcases h2 with h | h | h | h <;> simp [h1, h]
    have htc' : (preFrameStoreInput np0).tcpConnected = true := htc0.trans h1
    have hst' : (preFrameStoreInput np0).state ≠ .disconnected := by
      rw [hst0]; rcases h2 with h | h | h | h <;> rw [h] <;>
        exact fun hcon => NpState.noConfusion hcon
    have hmiss' : slotComplete (preFrameStoreInput np0)
        (preFrameStoreInput np0).runFrame = false := by rw [hrf0]; exact h3
    unfold netplayPreFrame
    rw [if_neg hpass]
    dsimp only
    show (match preFrameLoop 10 (preFrameStoreInput np0)
            (.packet NP_CMD_DISCONNECT f inp :: rest) with
          | NpLoopExit.ret np r => (np, r)
          | NpLoopExit.cont np _ => _) = _
    unfold preFrameLoop
    rw [hstep (preFrameStoreInput np0) htc' hst' hmiss']

/-- Witness for C2 at a concrete host session (and, for the client
conjunct, vacuously at that host's mode). -/
theorem netplay_disconnect_cmd_dispatch_witness :
    preFrameLoop 1 (npStalledHost 0) [.packet NP_CMD_DISCONNECT 0 0] =
      .ret (preFrameDisconnectCmd (npStalledHost 0)) false ∧
    (preFrameDisconnectCmd (npStalledHost 0)).state = .waiting ∧
    (preFrameDisconnectCmd (npStalledHost 0)).udpOpen = true ∧
    netplayPreFrame (npStalledHost 0) [.packet NP_CMD_DISCONNECT 0 0] =
      (preFrameDisconnectCmd (preFrameStoreInput (npStalledHost 0)), false) := by
  have h := netplay_disconnect_cmd_dispatch (npStalledHost 0) 0 0 0 []
    rfl (by decide) (by decide)
  exact ⟨h.1, (h.2.2.1 rfl).1, (h.2.2.1 rfl).2.1,
         h.2.2.2.2 (npStalledHost 0) rfl (Or.inr (Or.inr (Or.inl rfl))) (by decide)⟩

/-- C6 counterexample.  The claim "`Netplay_shouldSilenceAudio` is true
exactly while in `Stalled`, and every operation that moves the session to
another phase clears the flag" fails on the code: `Netplay_pause` changes
the phase to `Paused` without touching the cached flag.  The state
`npPausedAfterStall` is built from `Netplay_init` by `startHost`, an
accepted client, `completeStateSync`, two executed frames, one stalled
frame, and `Netplay_pause`; it is in phase `Paused` with the flag still
true. -/
theorem netplay_audio_silence_pause_counterexample :
    netplayShouldSilenceAudio npPausedAfterStall = true ∧
    npPausedAfterStall.state = .paused ∧
    npPausedAfterStall.state ≠ .stalled := by decide

/-- C6 amended.  `Netplay_shouldSilenceAudio` returns the cached flag,
and after every `Netplay_preFrame` call made from a connected running
phase the flag is true exactly when the resulting phase is `Stalled`;
`Netplay_pause` and `Netplay_resume`, however, change the phase without
updating the flag, so between a pause taken during a stall and the next
`preFrame` or disconnect the flag can be true outside `Stalled`. -/
theorem netplay_audio_silence_after_preframe (np : Np) (evs : List NpEvent)
    (hc : np.tcpConnected = true)
    (hs : np.state = .syncing ∨ np.state = .playing ∨
          np.state = .stalled ∨ np.state = .paused) :
    netplayShouldSilenceAudio (netplayPreFrame np evs).1 = true ↔
      (netplayPreFrame np evs).1.state = .stalled := by
  have hpass : ¬(np.tcpConnected = false ∨
      (np.state ≠ .syncing ∧ np.state ≠ .playing ∧
       np.state ≠ .stalled ∧ np.state ≠ .paused)) := by
    rcases hs with h | h | h | h <;> simp [hc, h]
  unfold netplayPreFrame
  rw [if_neg hpass]
  dsimp only
  cases hloop : preFrameLoop 10 (preFrameStoreInput np) evs with
  | ret np1 r =>
    obtain ⟨ha, hst, -⟩ := preFrameLoop_ret 10 (preFrameStoreInput np) np1 evs r hloop
    simp [netplayShouldSilenceAudio, ha, hst]
  | cont np1 rest =>
    by_cases hsc : slotComplete np1 np1.runFrame
    · simp [netplayShouldSilenceAudio, hsc]
    · simp only [Bool.not_eq_true] at hsc
      simp only [hsc, Bool.false_eq_true, if_false]
      split
      · simp [netplayShouldSilenceAudio]
      · split <;> simp [netplayShouldSilenceAudio]

/-- Witness for the amended C6 at a concrete stalled host receiving
nothing and at the same host receiving a `DISCONNECT`. -/
theorem netplay_audio_silence_after_preframe_witness :
    (netplayShouldSilenceAudio (netplayPreFrame (npStalledHost 3) []).1 = true ↔
      (netplayPreFrame (npStalledHost 3) []).1.state = .stalled) ∧
    (netplayShouldSilenceAudio
        (netplayPreFrame (npStalledHost 3) [.packet NP_CMD_DISCONNECT 0 0]).1 = true ↔
      (netplayPreFrame (npStalledHost 3) [.packet NP_CMD_DISCONNECT 0 0]).1.state =
        .stalled) :=
  ⟨netplay_audio_silence_after_preframe (npStalledHost 3) [] rfl
     (Or.inr (Or.inr (Or.inl rfl))),
   netplay_audio_silence_after_preframe (npStalledHost 3)
     [.packet NP_CMD_DISCONNECT 0 0] rfl (Or.inr (Or.inr (Or.inl rfl)))⟩

/-- C7 counterexample.  The claim says that after the 180-frame stall the
host "restarts its discovery broadcasts so a subsequent discovery scan
sees the host again".  On the code, the stall-timeout path
(`preFrame` marks the session `Disconnected`, `Netplay_update` calls
`Netplay_disconnect`) returns the host to `Waiting` but never reopens the
discovery UDP socket — `Netplay_disconnect` does not call
`Netplay_restartBroadcast` — so with the broadcast socket closed (as it is
after the post-connection `Netplay_stopBroadcast`) the listen thread does
not broadcast and a discovery scan cannot see the host. -/
theorem netplay_stall_timeout_no_broadcast_counterexample :
    (netplayUpdate (npStalledHost 180) 0 [] true).1.state = .waiting ∧
    (netplayUpdate (npStalledHost 180) 0 [] true).2 = 1 ∧
    (netplayUpdate (npStalledHost 180) 0 [] true).1.udpOpen = false ∧
    netplayListenThreadBroadcasts (netplayUpdate (npStalledHost 180) 0 [] true).1 =
      false := by decide

/-- C7 amended.  In the never-resuming stall scenario, once the stall
counter passes 180 frames the host side does transition back to `Waiting`
(via `preFrame` marking the session `Disconnected` and `Netplay_update`
calling `Netplay_disconnect`, which also clears the stall counter), but
the discovery broadcast socket is left exactly as it was: broadcasts
resume only if the UDP socket was still open, because this path — unlike
the `DISCONNECT`-command and connection-closed paths — never calls
`Netplay_restartBroadcast`. -/
theorem netplay_stall_timeout_host_to_waiting (np : Np) (inp : Nat)
    (syncOk : Bool)
    (hm : np.mode = .host) (hc : np.tcpConnected = true)
    (hs : np.state = .playing ∨ np.state = .stalled)
    (hlp : np.localPaused = false) (hrp : np.remotePaused = false)
    (hsf : np.stallFrames = NETPLAY_STALL_TIMEOUT_FRAMES)
    (hmiss : slotComplete (preFrameStoreInput { np with localInput := inp })
      np.runFrame = false) :
    (netplayUpdate np inp [] syncOk).2 = 1 ∧
    (netplayUpdate np inp [] syncOk).1.state = .waiting ∧
    (netplayUpdate np inp [] syncOk).1.mode = .host ∧
    (netplayUpdate np inp [] syncOk).1.stallFrames = 0 ∧
    (netplayUpdate np inp [] syncOk).1.udpOpen = np.udpOpen ∧
    netplayListenThreadBroadcasts (netplayUpdate np inp [] syncOk).1 =
      np.udpOpen := by
  have hm1 : (preFrameStoreInput { np with localInput := inp }).mode = np.mode :=
    (preFrameStoreInput_fields _).1
  have hud1 : (preFrameStoreInput { np with localInput := inp }).udpOpen = np.udpOpen :=
    (preFrameStoreInput_fields _).2.2.2.1
  have hmodeA : (preFrameStoreInput { np with localInput := inp }).mode = .host :=
    hm1.trans hm
  have hns : ¬(np.needsStateSync ∧ np.state = .syncing) := by
    rcases hs with h | h <;> simp [h]
  unfold netplayUpdate
  rw [if_neg hns, if_pos hs]
  dsimp only
  rw [netplayPreFrame_nil_reduce { np with localInput := inp } hc
    (by rcases hs with h | h
        · exact Or.inr (Or.inl h)
        · exact Or.inr (Or.inr (Or.inl h))) hmiss]
  have hcond : ({ np with localInput := inp } : Np).localPaused = false ∧
      ({ np with localInput := inp } : Np).remotePaused = false ∧
      ({ np with localInput := inp } : Np).stallFrames + 1 >
        NETPLAY_STALL_TIMEOUT_FRAMES := by
    refine ⟨hlp, hrp, ?_⟩
    show np.stallFrames + 1 > NETPLAY_STALL_TIMEOUT_FRAMES
    rw [hsf]
    exact Nat.lt_succ_self _
  rw [if_pos hcond]
  dsimp only
  simp [netplayDisconnect, hmodeA, netplayListenThreadBroadcasts, hud1]

/-- Witness for the amended C7 at the concrete stalled host with the
broadcast socket closed. -/
theorem netplay_stall_timeout_host_to_waiting_witness :
    (netplayUpdate (npStalledHost 180) 0 [] true).2 = 1 ∧
    (netplayUpdate (npStalledHost 180) 0 [] true).1.state = .waiting ∧
    (netplayUpdate (npStalledHost 180) 0 [] true).1.mode = .host ∧
    (netplayUpdate (npStalledHost 180) 0 [] true).1.stallFrames = 0 ∧
    (netplayUpdate (npStalledHost 180) 0 [] true).1.udpOpen =
      (npStalledHost 180).udpOpen ∧
    netplayListenThreadBroadcasts (netplayUpdate (npStalledHost 180) 0 [] true).1 =
      (npStalledHost 180).udpOpen :=
  netplay_stall_timeout_host_to_waiting (npStalledHost 180) 0 true rfl rfl
    (Or.inr rfl) rfl rfl rfl (by decide)

/-- C9 counterexample.  Disconnect in the `Off` role is not a no-op on the
session record: from the freshly initialised records (role `Off`, phase
`Idle`, status "ready") both `Netplay_disconnect` and `GBALink_disconnect`
set the phase to `Disconnected` and the status message to
"Disconnected". -/
theorem disconnect_off_not_noop_counterexample :
    (netplayDisconnect netplayInit).1.state = .disconnected ∧
    netplayInit.state = .idle ∧
    (netplayDisconnect netplayInit).1.statusMsg = .disconnectedMsg ∧
    netplayInit.statusMsg = .ready ∧
    (gbalinkDisconnect glInit).1.state = .disconnected ∧
    glInit.state = .idle ∧
    (gbalinkDisconnect glInit).1.statusMsg = .disconnectedMsg ∧
    glInit.statusMsg = .ready := by decide

/-- C9 amended.  Calling disconnect in the `Off` role sends no packet and
never changes the role, and a *second* disconnect is a true no-op (the
first call is a fixpoint of the operation); but the first call is not a
no-op on the record: it sets the phase to `Disconnected`, rewrites the
status message, and clears the pause/audio flags (Netplay) resp. resets
the pending-queue count and stream indices (GBA Link). -/
theorem disconnect_off_amended (np : Np) (gl : Gl)
    (hnp : np.mode = .off) (hnt : np.tcpConnected = false)
    (hgm : gl.mode = .off) (hgt : gl.tcpConnected = false)
    (hgn : gl.netpacketActive = false) :
    (netplayDisconnect np).2 = false ∧
    (netplayDisconnect np).1.mode = .off ∧
    netplayDisconnect (netplayDisconnect np).1 = netplayDisconnect np ∧
    (gbalinkDisconnect gl).2 = false ∧
    (gbalinkDisconnect gl).1.mode = .off ∧
    gbalinkDisconnect (gbalinkDisconnect gl).1 = gbalinkDisconnect gl := by
  refine ⟨?_, ?_, ?_, ?_, ?_, ?_⟩ <;>
    simp [netplayDisconnect, gbalinkDisconnect, glNotifyDisconnected,
          hnp, hnt, hgm, hgt, hgn]

/-- Witness for the amended C9 at the freshly initialised records. -/
theorem disconnect_off_amended_witness :
    (netplayDisconnect netplayInit).2 = false ∧
    (netplayDisconnect netplayInit).1.mode = .off ∧
    netplayDisconnect (netplayDisconnect netplayInit).1 =
      netplayDisconnect netplayInit ∧
    (gbalinkDisconnect glInit).2 = false ∧
    (gbalinkDisconnect glInit).1.mode = .off ∧
    gbalinkDisconnect (gbalinkDisconnect glInit).1 = gbalinkDisconnect glInit :=
  disconnect_off_amended netplayInit glInit rfl rfl rfl rfl rfl

/-- Counting helper for C4: one queue operation keeps the count within
the slot bound. -/
theorem glQueueApply_count_le (q : GlQueue) (op : GlQueueOp)
    (h : q.count ≤ MAX_PENDING_PACKETS) :
    (glQueueApply q op).count ≤ MAX_PENDING_PACKETS := by
  cases op with
  | enqueue pkt =>
    simp only [glQueueApply, glEnqueuePending]
    split
    · rename_i hc
      exact hc.1
    · exact h
  | pop =>
    simp only [glQueueApply, glPopPending]
    split
    · exact h
    · exact le_trans (Nat.sub_le _ _) h
  | connectReset => exact Nat.zero_le _
  | disconnectReset => exact Nat.zero_le _

/-- Folding helper for C4. -/
theorem glQueueApplyAll_count_le (ops : List GlQueueOp) (q : GlQueue)
    (h : q.count ≤ MAX_PENDING_PACKETS) :
    (glQueueApplyAll q ops).count ≤ MAX_PENDING_PACKETS := by
  induction ops generalizing q with
  | nil => exact h
  | cons op rest ih => exact ih (glQueueApply q op) (glQueueApply_count_le q op h)

/-- C4.  The pending-packet queue count stays in `[0, 32]` under any
sequence of producer/consumer/reset operations starting from the
initialised queue (the lower bound is inherent in the `Nat` count and in
the `count > 0` pop guard, whose boundary case is the third conjunct);
enqueueing into a full queue drops the incoming packet and leaves the
whole queue — slots, count and both indices — unchanged; popping from an
empty queue yields nothing and leaves the queue unchanged. -/
theorem gbalink_pending_queue_bounds :
    (∀ ops : List GlQueueOp,
      (glQueueApplyAll glQueueInit ops).count ≤ MAX_PENDING_PACKETS) ∧
    (∀ (q : GlQueue) (pkt : GlPacket), q.count = MAX_PENDING_PACKETS →
      glEnqueuePending q pkt = q) ∧
    (∀ q : GlQueue, q.count = 0 → glPopPending q = (none, q)) := by
  refine ⟨?_, ?_, ?_⟩
  · intro ops
    exact glQueueApplyAll_count_le ops glQueueInit (Nat.zero_le _)
  · intro q pkt h
    unfold glEnqueuePending
    rw [if_neg]
    intro hcon
    rw [h] at hcon
    exact absurd hcon.1 (lt_irrefl _)
  · intro q h
    unfold glPopPending
    rw [if_pos h]

/-- Witness for C4: a short operation sequence, the full queue, and the
empty queue. -/
theorem gbalink_pending_queue_bounds_witness :
    (glQueueApplyAll glQueueInit
      [.enqueue { data := [5], len := 1, clientId := 0 }, .pop]).count ≤
      MAX_PENDING_PACKETS ∧
    glEnqueuePending glFullQueue { data := [9], len := 1, clientId := 1 } =
      glFullQueue ∧
    glPopPending glQueueInit = (none, glQueueInit) :=
  ⟨gbalink_pending_queue_bounds.1 _,
   gbalink_pending_queue_bounds.2.1 glFullQueue _ rfl,
   gbalink_pending_queue_bounds.2.2 glQueueInit rfl⟩

/-- C3.  GBA Link parser size boundary, at the parse phase of
`recv_packet`: a header declaring exactly 2048 payload bytes, with the
full packet buffered, is accepted with the caller's buffer bound
`RECV_BUFFER_SIZE` (the bound `GBALink_pollReceive` passes) and the parse
returns the payload bytes; a header declaring more than
`min(max_size, RECV_BUFFER_SIZE)` bytes (e.g. 2049) makes the parser
reset both stream-buffer indices to zero — discarding everything
buffered — and report no packet. -/
theorem gbalink_parser_size_boundary :
    (∀ s : GlStream,
      s.readIdx + (GL_HEADER_SIZE + 2048) ≤ s.writeIdx →
      glDeclaredSize s = 2048 →
      (glRecvParse s RECV_BUFFER_SIZE).1 =
        some { cmd := s.data s.readIdx, size := 2048,
               clientId := glDeclaredClientId s,
               payload := fun i => s.data (s.readIdx + GL_HEADER_SIZE + i) }) ∧
    (∀ (s : GlStream) (maxSize : Nat),
      GL_HEADER_SIZE ≤ s.writeIdx - s.readIdx →
      glDeclaredSize s > min maxSize RECV_BUFFER_SIZE →
      glRecvParse s maxSize = (none, { s with readIdx := 0, writeIdx := 0 })) := by
  have hH : GL_HEADER_SIZE = 5 := rfl
  have hR : RECV_BUFFER_SIZE = 2048 := rfl
  refine ⟨?_, ?_⟩
  · intro s hle hsz
    unfold glRecvParse
    rw [if_neg (by omega)]
    dsimp only
    rw [if_neg (by rw [hsz]; omega)]
    rw [if_neg (by rw [hsz]; omega)]
    rw [hsz]
  · intro s maxSize h5 hgt
    unfold glRecvParse
    rw [if_neg (by omega)]
    dsimp only
    rw [if_pos (by omega)]

/-- Witness for C3: a buffered 2048-byte packet is parsed out whole, and
a buffered 2049-declaring header resets the indices. -/
theorem gbalink_parser_size_boundary_witness :
    (glRecvParse glStream2048 RECV_BUFFER_SIZE).1 =
      some { cmd := glStream2048.data glStream2048.readIdx, size := 2048,
             clientId := glDeclaredClientId glStream2048,
             payload := fun i =>
               glStream2048.data (glStream2048.readIdx + GL_HEADER_SIZE + i) } ∧
    glRecvParse glStream2049 RECV_BUFFER_SIZE =
      (none, { glStream2049 with readIdx := 0, writeIdx := 0 }) :=
  ⟨gbalink_parser_size_boundary.1 glStream2048 (by decide) (by decide),
   gbalink_parser_size_boundary.2 glStream2049 RECV_BUFFER_SIZE
     (by decide) (by decide)⟩

/-- One step of the client handshake loop on a READY carrying a
non-empty link mode that differs from the client's option. -/
theorem glHandshakeLoop_ready_mismatch (fuel : Nat) (gl : Gl) (cm hm : String)
    (rest : List HsEvent) (hne : hm ≠ "") (hdiff : cm ≠ hm) :
    glHandshakeLoop (fuel + 1) gl (some cm) (.ready hm :: rest) =
      .done { gl with
                pendingLinkMode := truncStr 32 hm
                clientLinkMode := truncStr 32 cm
                needsReload := true } true true := by
  unfold glHandshakeLoop
  simp [hne, hdiff]

/-- C5.  GBA Link link-mode mismatch handshake: when the host's `READY`
carries a non-empty link-mode string `hm` different from the client's
current core option `cm`, `GBALink_connectToHost` records the host's mode
in `pending_link_mode` and the client's in `client_link_mode` (the
`strncpy` truncation to the 32-byte fields is the identity for real mode
strings), sets `needs_reload`, and returns `NEEDS_RELOAD` without
starting the netpacket session (and with the TCP connection still up,
awaiting the UI's decision). -/
theorem gbalink_link_mode_mismatch (gl : Gl) (ip : String) (port now : Nat)
    (cm hm : String) (rest : List HsEvent)
    (hmode : gl.mode = .off) (hna : gl.netpacketActive = false)
    (hne : hm ≠ "") (hdiff : cm ≠ hm) :
    (glConnectToHost gl ip port now (some cm) (.ready hm :: rest)).2 =
      .needsReload ∧
    (glConnectToHost gl ip port now (some cm) (.ready hm :: rest)).1.needsReload =
      true ∧
    (glConnectToHost gl ip port now (some cm) (.ready hm :: rest)).1.pendingLinkMode =
      truncStr 32 hm ∧
    (glConnectToHost gl ip port now (some cm) (.ready hm :: rest)).1.clientLinkMode =
      truncStr 32 cm ∧
    (glConnectToHost gl ip port now (some cm) (.ready hm :: rest)).1.netpacketActive =
      false ∧
    (glConnectToHost gl ip port now (some cm) (.ready hm :: rest)).1.tcpConnected =
      true := by
  have hoff : ¬(gl.mode ≠ .off) := by simp [hmode]
  unfold glConnectToHost
  rw [if_neg hoff]
  dsimp only
  rw [show (100 : Nat) = 99 + 1 from rfl,
      glHandshakeLoop_ready_mismatch 99 (glConnectStart gl ip port now) cm hm
        rest hne hdiff]
  exact ⟨rfl, rfl, by simp, by simp, by simpa using hna, by simp [glConnectStart]⟩

/-- Witness for C5: host mode `"rfu"`, client option `"mul_poke"`. -/
theorem gbalink_link_mode_mismatch_witness :
    (glConnectToHost glInit "10.0.0.1" 55437 9 (some "mul_poke")
        [.ready "rfu"]).2 = .needsReload ∧
    (glConnectToHost glInit "10.0.0.1" 55437 9 (some "mul_poke")
        [.ready "rfu"]).1.needsReload = true ∧
    (glConnectToHost glInit "10.0.0.1" 55437 9 (some "mul_poke")
        [.ready "rfu"]).1.pendingLinkMode = truncStr 32 "rfu" ∧
    (glConnectToHost glInit "10.0.0.1" 55437 9 (some "mul_poke")
        [.ready "rfu"]).1.clientLinkMode = truncStr 32 "mul_poke" ∧
    (glConnectToHost glInit "10.0.0.1" 55437 9 (some "mul_poke")
        [.ready "rfu"]).1.netpacketActive = false ∧
    (glConnectToHost glInit "10.0.0.1" 55437 9 (some "mul_poke")
        [.ready "rfu"]).1.tcpConnected = true :=
  gbalink_link_mode_mismatch glInit "10.0.0.1" 55437 9 "mul_poke" "rfu" []
    rfl rfl (by decide) (by decide)

/-- Unrolling helper for C8: starting with `1000 * k` microseconds of
wait budget already spent, `k + 1` further blocked sends exhaust the
2-second budget, draining the receive side `k` more times and sleeping
`k` more milliseconds before the final attempt fails. -/
theorem sendAllAux_all_again (k : Nat) (hk : k ≤ 2000) :
    ∀ d s len : Nat,
    sendAllAux (SEND_ALL_MAX_WAIT_US - 1000 * k) d s (len + 1)
      (List.replicate (k + 1) .again) =
      some { ok := false, drains := d + k, sleptUs := s + 1000 * k, rest := [] } := by
  have hM : SEND_ALL_MAX_WAIT_US = 2000000 := rfl
  induction k with
  | zero =>
    intro d s len
    simp [sendAllAux, SEND_ALL_MAX_WAIT_US, List.replicate]
  | succ n ih =>
    intro d s len
    rw [List.replicate_succ]
    unfold sendAllAux
    rw [if_neg (by omega)]
    have h2 : SEND_ALL_MAX_WAIT_US - 1000 * (n + 1) + 1000 =
        SEND_ALL_MAX_WAIT_US - 1000 * n := by omega
    rw [h2, ih (by omega) (d + 1) (s + 1000) len]
    have hd : d + 1 + n = d + (n + 1) := by omega
    have hs : s + 1000 + 1000 * n = s + 1000 * (n + 1) := by ring
    rw [hd, hs]

/-- C8.  `send_all` blocked-send bound: a send that only ever reports
`EAGAIN`/`EWOULDBLOCK` is retried with 1 ms sleeps, draining the receive
side on each blocked attempt, until the 2-second budget
(`SEND_ALL_MAX_WAIT_US`) is exhausted — 2000 drains and 2 000 000 µs of
sleep over 2001 attempts — and then fails; and a `CMD_SIO_DATA` send that
fails this way makes `GBALink_sendPacket` disconnect the session (socket
closed; a client ends in `Disconnected`, a host returns to `Waiting`). -/
theorem gbalink_send_blocked_two_seconds (len : Nat) (gl : Gl) (now : Nat)
    (hconn : glIsConnected gl = true) :
    sendAll (len + 1) (List.replicate 2001 .again) =
      some { ok := false, drains := 2000, sleptUs := 2000000, rest := [] } ∧
    glSendPacketOp gl (len + 1) (List.replicate 2001 .again) now =
      some (gbalinkDisconnect gl).1 ∧
    (gbalinkDisconnect gl).1.tcpConnected = false ∧
    (gl.mode = .client → (gbalinkDisconnect gl).1.state = .disconnected) ∧
    (gl.mode = .host → (gbalinkDisconnect gl).1.state = .waiting) := by
  have hall : ∀ m : Nat, sendAll (m + 1) (List.replicate 2001 .again) =
      some { ok := false, drains := 2000, sleptUs := 2000000, rest := [] } := by
    intro m
    have h0 : (0 : Nat) = SEND_ALL_MAX_WAIT_US - 1000 * 2000 := rfl
    unfold sendAll
    nth_rewrite 1 [h0]
    exact sendAllAux_all_again 2000 (le_refl 2000) 0 0 m
  have hshape : (gbalinkDisconnect gl).1.tcpConnected = false ∧
      (gl.mode = .client → (gbalinkDisconnect gl).1.state = .disconnected) ∧
      (gl.mode = .host → (gbalinkDisconnect gl).1.state = .waiting) := by
    cases hna : gl.netpacketActive <;> cases hgm : gl.mode <;>
      simp [gbalinkDisconnect, glNotifyDisconnected, hna, hgm]
  refine ⟨hall len, ?_, hshape.1, hshape.2.1, hshape.2.2⟩
  unfold glSendPacketOp
  rw [if_neg (by rw [hconn]; exact fun hcon => Bool.noConfusion hcon)]
  rw [if_neg (Nat.succ_ne_zero len)]
  unfold glSendPacketRaw
  rw [show GL_HEADER_SIZE = 4 + 1 from rfl, hall 4]
  rfl

/-- Witness for C8 at a concrete connected client session. -/
theorem gbalink_send_blocked_two_seconds_witness :
    sendAll 3 (List.replicate 2001 .again) =
      some { ok := false, drains := 2000, sleptUs := 2000000, rest := [] } ∧
    glSendPacketOp glConnectedClient 3 (List.replicate 2001 .again) 42 =
      some (gbalinkDisconnect glConnectedClient).1 ∧
    (gbalinkDisconnect glConnectedClient).1.tcpConnected = false ∧
    (glConnectedClient.mode = .client →
      (gbalinkDisconnect glConnectedClient).1.state = .disconnected) ∧
    (glConnectedClient.mode = .host →
      (gbalinkDisconnect glConnectedClient).1.state = .waiting) :=
  gbalink_send_blocked_two_seconds 2 glConnectedClient 42 rfl

/-- Counting helper for C10: the drain loop's return value is the final
host-list length. -/
theorem receiveDiscoveryResponses_count (em mh : Nat)
    (ds : List NetDatagram) :
    ∀ hosts : List NetHostInfo,
    (receiveDiscoveryResponses em mh hosts ds).2 =
      (receiveDiscoveryResponses em mh hosts ds).1.length := by
  induction ds with
  | nil => intro hosts; rfl
  | cons d rest ih =>
    intro hosts
    unfold receiveDiscoveryResponses
    split
    · rfl
    · exact ih _

/-- C10.  `NET_receiveDiscoveryResponses` deduplicates solely by sender
IP — a datagram whose sender is already listed leaves the list unchanged
whatever metadata it advertises; once the list holds `max_hosts` entries a
datagram from a new sender is discarded; and the function returns the
(possibly unchanged) current count, which is the host-list length. -/
theorem discovery_insert_only_ip_keyed :
    (∀ (em mh : Nat) (hosts : List NetHostInfo) (d : NetDatagram),
      hosts.any (fun h => h.hostIp = d.senderIp) = true →
      discoveryStep em mh hosts d = hosts) ∧
    (∀ (em mh : Nat) (hosts : List NetHostInfo) (d : NetDatagram),
      mh ≤ hosts.length →
      discoveryStep em mh hosts d = hosts) ∧
    (∀ (em mh : Nat) (hosts : List NetHostInfo) (ds : List NetDatagram),
      (receiveDiscoveryResponses em mh hosts ds).2 =
        (receiveDiscoveryResponses em mh hosts ds).1.length) := by
  refine ⟨?_, ?_, ?_⟩
  · intro em mh hosts d hdup
    unfold discoveryStep
    split
    · rfl
    · simp [hdup]
  · intro em mh hosts d hfull
    unfold discoveryStep
    split
    · rfl
    · split
      · rfl
      · rw [if_neg (by omega)]
  · intro em mh hosts ds
    exact receiveDiscoveryResponses_count em mh ds hosts

/-- Witness for C10: a duplicate-sender datagram with different metadata,
a full one-slot list, and a two-datagram drain. -/
theorem discovery_insert_only_ip_keyed_witness :
    discoveryStep 99 8 discoveryOneHost discoveryDupDatagram =
      discoveryOneHost ∧
    discoveryStep 99 1 discoveryOneHost discoveryNewDatagram =
      discoveryOneHost ∧
    (receiveDiscoveryResponses 99 8 discoveryOneHost
        [discoveryDupDatagram, discoveryNewDatagram]).2 =
      (receiveDiscoveryResponses 99 8 discoveryOneHost
        [discoveryDupDatagram, discoveryNewDatagram]).1.length :=
  ⟨discovery_insert_only_ip_keyed.1 99 8 discoveryOneHost discoveryDupDatagram
     (by decide),
   discovery_insert_only_ip_keyed.2.1 99 1 discoveryOneHost discoveryNewDatagram
     (by decide),
   discovery_insert_only_ip_keyed.2.2 99 8 discoveryOneHost
     [discoveryDupDatagram, discoveryNewDatagram]⟩

end NextUI
